import Mathlib

/-!
Verification of `src/SOLID_Principles_examples.js`, a single file of short,
independent class definitions illustrating the five SOLID principles, each
shown once applied correctly and once violated.

Embedding conventions:
* Each example is placed in its own namespace (`SRP`, `OCP`, `LSP`, `LSPBad`,
  `ISPGood`, `ISPBad`, `DIP`, `DIPBad`), since several examples redeclare the
  same class name in the JavaScript source.
* A method whose body only calls `console.log` is embedded as the list of
  lines it logs (`List String`).
* A method that may `throw` is embedded with `Except JsError`: a normal
  return is `Except.ok`, a thrown error is `Except.error`.
* JavaScript numbers are embedded as real numbers (`ℝ`); `Math.PI` is `Real.pi`.
* A field that may hold `null`/`undefined` is embedded with `Option`.
-/

/-- Errors observable from the JavaScript code: `throw new Error(msg)` used to
signal an unsupported operation, and the runtime `TypeError` raised when a
method is invoked on `null`/`undefined`. -/
inductive JsError where
  | unsupportedOperation (msg : String)
  | typeError (msg : String)
deriving DecidableEq, Repr

/-! ## OCP example: Shape / Rectangle / Circle, and the bad ShapeCalculator -/

/-- Source `class Rectangle extends Shape` with fields `width` and `height`. -/
structure OCP.Rectangle where
  width : ℝ
  height : ℝ

/-- Source `Rectangle.area()` returns `this.width * this.height`. -/
noncomputable def OCP.Rectangle.area (r : OCP.Rectangle) : ℝ :=
  r.width * r.height

/-- Source `class Circle extends Shape` with field `radius`. -/
structure OCP.Circle where
  radius : ℝ

/-- Source `Circle.area()` returns `Math.PI * this.radius ** 2`. -/
noncomputable def OCP.Circle.area (c : OCP.Circle) : ℝ :=
  Real.pi * c.radius ^ 2

/-- Source `ShapeCalculator.calculateArea(shape, width, height)`: an if/else chain on
the shape string; a JavaScript function that falls off the end returns
`undefined`, embedded as `none`. -/
noncomputable def OCP.ShapeCalculator.calculateArea (shape : String) (width height : ℝ) : Option ℝ :=
  if shape = "rectangle" then
    some (width * height)
  else if shape = "circle" then
    some (Real.pi * (width / 2) ^ 2)
  else
    none

/-! ## LSP example (good): Bird / Sparrow / Penguin -/

/-- Source `Bird.fly()` has an empty body: it returns normally and logs nothing. -/
def LSP.Bird.fly : Except JsError (List String) :=
  .ok []

/-- Source `Sparrow.fly()` (LSP-good) logs one line and returns normally. -/
def LSP.Sparrow.fly : Except JsError (List String) :=
  .ok ["I can fly at a moderate speed"]

/-- Source `Penguin.fly()` (LSP-good) logs one line and returns normally. -/
def LSP.Penguin.fly : Except JsError (List String) :=
  .ok ["I can\x27t fly but I can swim"]

/-! ## LSP example (bad): Vehicle / Car / Boat -/

/-- Source `Car.drive()` (LSP-bad example) logs one line and returns normally. -/
def LSPBad.Car.drive : Except JsError (List String) :=
  .ok ["Driving on the road"]

/-- Source `Boat.drive()` throws an Error saying it can only float. -/
def LSPBad.Boat.drive : Except JsError (List String) :=
  .error (.unsupportedOperation "I can\x27t drive, I can only float!")

/-! ## ISP example (good): segregated interfaces -/

/-- Source `interface Flyable` declares exactly the operation `fly`. -/
def Flyable.ops : List String := ["fly"]

/-- Source `interface Swimmable` declares exactly the operation `swim`. -/
def Swimmable.ops : List String := ["swim"]

/-- Source `interface Runnable` declares exactly the operation `run`. -/
def Runnable.ops : List String := ["run"]

/-- The methods declared by `class Sparrow implements Flyable, Runnable`
(ISP-good), in source order: `fly` and `run` only. -/
def ISPGood.Sparrow.methods : List String := ["fly", "run"]

/-- Source `Sparrow.fly()` (ISP-good) logs one line. -/
def ISPGood.Sparrow.fly : List String := ["I can fly at a moderate speed"]

/-- Source `Sparrow.run()` (ISP-good) logs one line. -/
def ISPGood.Sparrow.run : List String := ["I can run on the ground"]

/-- The methods declared by `class Penguin implements Swimmable, Runnable`
(ISP-good), in source order: `swim` and `run` only. -/
def ISPGood.Penguin.methods : List String := ["swim", "run"]

/-- Source `Penguin.swim()` (ISP-good) logs one line. -/
def ISPGood.Penguin.swim : List String := ["I can swim in water"]

/-- Source `Penguin.run()` (ISP-good) logs one line. -/
def ISPGood.Penguin.run : List String := ["I can run on the ground"]

/-! ## ISP example (bad): one broad Animal interface -/

/-- Source `Sparrow.fly()` (ISP-bad) logs one line and returns normally. -/
def ISPBad.Sparrow.fly : Except JsError (List String) :=
  .ok ["I can fly at a moderate speed"]

/-- Source `Sparrow.swim()` (ISP-bad) throws an Error saying it can only fly. -/
def ISPBad.Sparrow.swim : Except JsError (List String) :=
  .error (.unsupportedOperation "I can\x27t swim, I can only fly!")

/-- Source `Sparrow.run()` (ISP-bad) logs one line and returns normally. -/
def ISPBad.Sparrow.run : Except JsError (List String) :=
  .ok ["I can run on the ground"]

/-- Source `Penguin.fly()` (ISP-bad) throws an Error saying it can only swim. -/
def ISPBad.Penguin.fly : Except JsError (List String) :=
  .error (.unsupportedOperation "I can\x27t fly, I can only swim!")

/-- Source `Penguin.swim()` (ISP-bad) logs one line and returns normally. -/
def ISPBad.Penguin.swim : Except JsError (List String) :=
  .ok ["I can swim in water"]

/-- Source `Penguin.run()` (ISP-bad) logs one line and returns normally. -/
def ISPBad.Penguin.run : Except JsError (List String) :=
  .ok ["I can run on the ground"]

/-! ## DIP example: Engine / Car (good) and GasEngine / Car (bad)

JavaScript is duck-typed: the DIP-good `Car` accepts any object with a
`start` method. The source defines two such engine classes, `Engine`
(DIP-good section) and `GasEngine` (DIP-bad section), so the type of
engine implementers is their sum. -/

/-- The concrete engine implementers defined in the source. -/
inductive EngineImpl where
  | engine
  | gasEngine
deriving DecidableEq, Repr

/-- Dynamic dispatch of `.start()` on an engine implementer: `Engine.start()`
logs `"Engine started"`, `GasEngine.start()` logs `"Gas Engine started"`. -/
def EngineImpl.start : EngineImpl → List String
  | .engine => ["Engine started"]
  | .gasEngine => ["Gas Engine started"]

/-- The DIP-good `Car`: its only field is `engine`, which holds whatever the
constructor was given, possibly `null`/`undefined`. -/
structure DIP.Car where
  engine : Option EngineImpl
deriving DecidableEq, Repr

/-- Source `constructor(engine) { this.engine = engine; }` — the constructor body is a
single assignment; it performs no check and never throws, so it returns
`Except.ok` on every argument, `null` included. -/
def DIP.Car.construct (engine : Option EngineImpl) : Except JsError DIP.Car :=
  .ok ⟨engine⟩

/-- Source `Car.start() { this.engine.start(); }` — reads the `engine` field and calls
its `start` method; mutates nothing, so the post-state is returned unchanged.
Invoking `.start()` on a `null` engine raises a `TypeError`. -/
def DIP.Car.start (c : DIP.Car) : Except JsError (List String) × DIP.Car :=
  match c.engine with
  | some e => (.ok e.start, c)
  | none => (.error (.typeError "Cannot read properties of null (reading start)"), c)

/-- The DIP-bad `Car` constructor takes no argument and hard-codes
`this.engine = new GasEngine()`. -/
def DIPBad.Car.construct : DIP.Car :=
  ⟨some .gasEngine⟩

/-! ## Consumer shape -/

/-- Modelled from the spec: the §4.3 Consumer — a unit that stores an injected
Capability implementer. The DIP-good `Car` instantiates this shape for
engines; the shape-bound Consumers of Scenarios 1 and 2 are not present in
the source. -/
structure Consumer (α : Type) where
  impl : α

/-- Modelled from the spec: `operate()` delegates unconditionally to the stored
operation of the stored implementer, mirroring the body of `Car.start()`. -/
def Consumer.operate {α β : Type} (operation : α → β) (c : Consumer α) : β :=
  operation c.impl

/-! ## Claims -/

/-- C1: every DIP-good Car constructed with an engine implementer delegates
unconditionally: `Car.start()` returns exactly the result the implementer
produces when its `start()` is invoked directly, uniformly in the
implementer, with no branching on its concrete identity. -/
theorem c1_delegation_equivalence (e : EngineImpl) :
    (DIP.Car.start ⟨some e⟩).1 = .ok e.start := rfl

/-- C2 counterexample: constructing the DIP-good Car with a null engine does
not fail; it succeeds and produces a Car instance whose engine field is null. -/
theorem c2_null_construction_succeeds :
    DIP.Car.construct none = .ok ⟨none⟩ := rfl

/-- C2 (amended): the DIP-good Car constructor performs no validation at all;
for every argument, null included, construction succeeds and stores the
argument unchanged, and a null implementer fails only later, when `start()`
is invoked, with a TypeError. -/
theorem c2_constructor_never_validates :
    (∀ e, DIP.Car.construct e = .ok ⟨e⟩) ∧
      (DIP.Car.start ⟨none⟩).1 =
        .error (.typeError "Cannot read properties of null (reading start)") :=
  ⟨fun _ => rfl, rfl⟩

/-- C3: the ISP-bad Sparrow asked to swim and the ISP-bad Penguin asked to fly
each produce the typed unsupported-operation failure, with the exact source
message, never a normal return; there is no internal catch, so the failure
surfaces unchanged to the caller. -/
theorem c3_unsupported_operation_surfaces :
    ISPBad.Sparrow.swim = .error (.unsupportedOperation "I can\x27t swim, I can only fly!") ∧
      ISPBad.Penguin.fly = .error (.unsupportedOperation "I can\x27t fly, I can only swim!") ∧
      (∀ out, ISPBad.Sparrow.swim ≠ .ok out) ∧
      (∀ out, ISPBad.Penguin.fly ≠ .ok out) :=
  ⟨rfl, rfl, fun _ h => Except.noConfusion h, fun _ h => Except.noConfusion h⟩

/-- C4: the LSP-good Sparrow and Penguin, the pair documented as fully
substitutable for `Bird.fly`, both return normally from the shared `fly`
operation; neither introduces a failure the other does not have. -/
theorem c4_substitutable_implementers_both_succeed :
    (∃ out, LSP.Sparrow.fly = Except.ok out) ∧
      (∃ out, LSP.Penguin.fly = Except.ok out) :=
  ⟨⟨_, rfl⟩, ⟨_, rfl⟩⟩

/-- C5: a Consumer bound to a Rectangle implementer constructed with width 4
and height 5 returns exactly 20 from `operate()`. -/
theorem c5_rectangle_consumer_returns_20 :
    Consumer.operate OCP.Rectangle.area ⟨⟨4, 5⟩⟩ = 20 := by
  norm_num [Consumer.operate, OCP.Rectangle.area]

/-- C6: a Consumer bound to a Circle implementer constructed with radius 2
returns from `operate()` a value within one thousandth of 12.566, the
floating-point tolerance the spec allows for pi times 2 squared. -/
theorem c6_circle_consumer_within_tolerance :
    |Consumer.operate OCP.Circle.area ⟨⟨2⟩⟩ - 12.566| < 1 / 1000 := by
  have h1 := Real.pi_gt_d6
  have h2 := Real.pi_lt_d6
  simp only [Consumer.operate, OCP.Circle.area]
  rw [abs_lt]
  constructor <;> nlinarith

/-- C7: the engine binding of a DIP-good Car is fixed at construction:
`Car.start()`, the only exposed operation, leaves the whole Car state, the
stored engine field included, unchanged for every Car instance. -/
theorem c7_start_preserves_binding (c : DIP.Car) :
    (DIP.Car.start c).2 = c := by
  rcases c with ⟨_ | e⟩ <;> rfl

/-- C8: the ISP-good Sparrow exposes exactly the operations of Flyable and
Runnable, fly and run, and no swim; the ISP-good Penguin exposes exactly the
operations of Swimmable and Runnable, swim and run, and no fly. -/
theorem c8_interface_minimality :
    ISPGood.Sparrow.methods = Flyable.ops ++ Runnable.ops ∧
      "swim" ∉ ISPGood.Sparrow.methods ∧
      ISPGood.Penguin.methods = Swimmable.ops ++ Runnable.ops ∧
      "fly" ∉ ISPGood.Penguin.methods := by
  refine ⟨rfl, ?_, rfl, ?_⟩ <;> decide

/-- C9: for every shape string other than rectangle and circle, and all width
and height arguments, `ShapeCalculator.calculateArea` returns undefined,
embedded as `none` — no value, no error, no typed failure. -/
theorem c9_unknown_shape_returns_undefined (s : String) (w h : ℝ)
    (h1 : s ≠ "rectangle") (h2 : s ≠ "circle") :
    OCP.ShapeCalculator.calculateArea s w h = none := by
  unfold OCP.ShapeCalculator.calculateArea
  rw [if_neg h1, if_neg h2]

/-- C9 witness: the triangle shape string with width 1 and height 2. -/
theorem c9_unknown_shape_returns_undefined_witness :
    ("triangle" ≠ "rectangle" ∧ "triangle" ≠ "circle") ∧
      OCP.ShapeCalculator.calculateArea "triangle" 1 2 = none :=
  ⟨⟨by decide, by decide⟩,
    c9_unknown_shape_returns_undefined "triangle" 1 2 (by decide) (by decide)⟩

/-- C10: `ShapeCalculator.calculateArea` on the circle shape returns pi times
the square of half the width, treating the width as a diameter and ignoring
the height entirely, and for the same numeric input it agrees with
`Circle.area` exactly when that input is zero. -/
theorem c10_circle_branch_uses_width_as_diameter :
    (∀ w h : ℝ,
        OCP.ShapeCalculator.calculateArea "circle" w h = some (Real.pi * (w / 2) ^ 2)) ∧
      (∀ r h : ℝ,
        OCP.ShapeCalculator.calculateArea "circle" r h = some (OCP.Circle.area ⟨r⟩) ↔ r = 0) := by
  have hbranch : ∀ w h : ℝ,
      OCP.ShapeCalculator.calculateArea "circle" w h = some (Real.pi * (w / 2) ^ 2) := by
    intro w h
    unfold OCP.ShapeCalculator.calculateArea
    rw [if_neg (by decide), if_pos rfl]
  refine ⟨hbranch, fun r h => ?_⟩
  rw [hbranch r h, Option.some_inj, OCP.Circle.area]
  constructor
  · intro hEq
    have hr2 : r ^ 2 = 0 := by
      by_contra hne
      have h0 : 0 < r ^ 2 := lt_of_le_of_ne (sq_nonneg r) (Ne.symm hne)
      nlinarith [mul_pos Real.pi_pos h0]
    exact sq_eq_zero_iff.mp hr2
  · intro hr
    subst hr
    norm_num
